import Mathlib

/-!
Shallow embedding of `src/charm.py` (MinioTestCharm), a Juju machine charm
that installs and configures a MinIO server.

Modelling conventions:
* The charm configuration (`self.config`) is the `Config` structure; `port`
  and `console-port` are natural numbers (rendered with `toString`, as
  Python's `str.format` renders integers), the remaining options are strings.
* File writes are modelled as pure functions from the previous file content
  (and the configuration) to the new content; opening with mode "w"
  truncates, so the previous content is ignored.
* Handlers whose steps can raise exceptions (`subprocess.check_call`,
  file I/O, `urlretrieve`) are modelled by a success oracle `ok : α → Bool`
  over the actions the handler performs; `runSteps` reproduces Python's
  exception propagation (a failing step aborts the handler, later steps are
  not executed, earlier effects are kept).
* The OS principal database (`grp.getgrall` / `pwd.getpwall`) is the
  `OSState` structure; `groupadd` / `useradd` invocations are recorded as
  `Cmd` values together with their effect on the database.
* The s3 relation publication (`update_connection_info`) is modelled as the
  list of `(relation id, connection data)` pairs the handler publishes;
  connection data is an association list, so the presence or absence of a
  dictionary key is represented literally.
-/

/-- Charm configuration (`self.config`), from `config.yaml` of this charm:
`deb-url`, `port`, `console-port`, `root-user`, `root-password`, `region`,
`bucket`, `s3-uri-style`. -/
structure Config where
  debUrl : String
  port : Nat
  consolePort : Nat
  rootUser : String
  rootPassword : String
  region : String
  bucket : String
  s3UriStyle : String
deriving Repr, DecidableEq

/-- Class constant `SERVICE_NAME = "minio"`. -/
def SERVICE_NAME : String := "minio"

/-- Class constant `SYSTEMD_ENV_FILE = "/etc/default/minio"`. -/
def SYSTEMD_ENV_FILE : String := "/etc/default/minio"

/-- Class constant `MINIO_DATA_DIR = "/var/lib/minio"`. -/
def MINIO_DATA_DIR : String := "/var/lib/minio"

/-- Class constant `MINIO_SYSTEM_USER = "minio-user"`. -/
def MINIO_SYSTEM_USER : String := "minio-user"

/-- Class constant `MINIO_SYSTEM_GROUP = "minio-user"`. -/
def MINIO_SYSTEM_GROUP : String := "minio-user"

/-- The `minio_opts` string built in `_write_systemd_env_file`:
`"--address :{} --console-address :{}".format(config["port"], config["console-port"])`. -/
def minio_opts (cfg : Config) : String :=
  "--address :" ++ toString cfg.port ++ " --console-address :" ++ toString cfg.consolePort

/-- The `minio_env` dict built in `_write_systemd_env_file`, in insertion
order (Python dicts preserve it). -/
def minio_env (cfg : Config) : List (String × String) :=
  [("MINIO_ROOT_USER", cfg.rootUser),
   ("MINIO_ROOT_PASSWORD", cfg.rootPassword),
   ("MINIO_VOLUMES", MINIO_DATA_DIR),
   ("MINIO_REGION", cfg.region),
   ("MINIO_OPTS", minio_opts cfg)]

/-- Embedding of `_write_systemd_env_file`: the file is opened with mode
"w" (truncating whatever content `prev` it had, which is therefore ignored)
and each dict entry is written as `"{}={}\n".format(k, v)`.  The result is
the new content of `SYSTEMD_ENV_FILE`. -/
def _write_systemd_env_file (prev : String) (cfg : Config) : String :=
  (minio_env cfg).foldl (fun acc kv => acc ++ (kv.1 ++ "=" ++ kv.2 ++ "\n")) ""

/-- Lines of a text file content: the chunks between newline characters.
A file consisting of exactly `n` newline-terminated lines yields the `n`
line bodies followed by one final empty chunk. -/
def fileLines (s : String) : List (List Char) :=
  s.data.splitOn '\n'

/-- An incoming `CredentialRequestedEvent`: the requested default bucket
(`event.bucket`) and the id of the relation that issued the request
(`event.relation.id`). -/
structure CredRequest where
  bucket : String
  relationId : Nat
deriving Repr, DecidableEq

/-- The `conn_data` dict assembled by `_on_credential_requested` for a
leader unit, as an association list in insertion order.  `bindAddress` is
`str(binding.network.bind_address)` for the requesting relation's binding.
The `s3-uri-style` key is added only when `config["s3-uri-style"]` is
truthy, i.e. a non-empty string. -/
def conn_data (bindAddress : String) (cfg : Config) (event : CredRequest) :
    List (String × String) :=
  let endpoint := "http://" ++ bindAddress ++ ":" ++ toString cfg.port
  let base :=
    [("bucket", if cfg.bucket = "" then event.bucket else cfg.bucket),
     ("access-key", cfg.rootUser),
     ("secret-key", cfg.rootPassword),
     ("endpoint", endpoint),
     ("region", cfg.region)]
  if cfg.s3UriStyle = "" then base else base ++ [("s3-uri-style", cfg.s3UriStyle)]

/-- Embedding of `_on_credential_requested`.  The result is the list of
publications performed via `s3_provider.update_connection_info(relation_id,
conn_data)`: a non-leader unit returns immediately and publishes nothing;
a leader publishes exactly one descriptor, addressed to the id of the
relation carried by the event. -/
def _on_credential_requested (isLeader : Bool) (bindAddress : String)
    (cfg : Config) (event : CredRequest) : List (Nat × List (String × String)) :=
  if !isLeader then []
  else [(event.relationId, conn_data bindAddress cfg event)]

/-- An OS user record as created by `useradd`: the flags the charm passes
are `-M` (do not create a home directory, hence no login environment),
`-r` (system account) and `-g <group>` (primary group). -/
structure UserRec where
  name : String
  primaryGroup : String
  system : Bool
  createHome : Bool
deriving Repr, DecidableEq

/-- The host OS principal database: the group names visible via
`grp.getgrall()` and the user records visible via `pwd.getpwall()`. -/
structure OSState where
  groups : List String
  users : List UserRec
deriving Repr, DecidableEq

/-- A principal-creation command issued via `subprocess.check_call`. -/
inductive Cmd where
  /-- `groupadd -r <name>` -/
  | groupadd (name : String)
  /-- `useradd -M -r -g <group> <name>` -/
  | useradd (group : String) (name : String)
deriving Repr, DecidableEq

/-- Embedding of `_add_system_group`, generalised over the group name the
class constant `MINIO_SYSTEM_GROUP` holds: if the name is already among the
existing groups, log and return (no command is run, the database is
unchanged); otherwise run `groupadd -r <name>`, whose success adds the
group.  The result is the new database and the list of commands issued. -/
def _add_system_group (name : String) (st : OSState) : OSState × List Cmd :=
  if name ∈ st.groups then (st, [])
  else ({ st with groups := st.groups ++ [name] }, [Cmd.groupadd name])

/-- Embedding of `_add_system_user`, generalised over the user and group
names the class constants hold: if the name is already among the existing
users, log and return (no command is run, the database is unchanged);
otherwise run `useradd -M -r -g <group> <name>`, whose success adds a
system (`-r`), no-home (`-M`) user with the given primary group. -/
def _add_system_user (uname gname : String) (st : OSState) : OSState × List Cmd :=
  if uname ∈ st.users.map UserRec.name then (st, [])
  else
    ({ st with users := st.users ++ [⟨uname, gname, true, false⟩] },
     [Cmd.useradd gname uname])

/-- One step performed by the `install` handler, with its payload. -/
inductive InstallAction where
  /-- `request.urlretrieve(url=config["deb-url"], filename="/tmp/minio.deb")` -/
  | fetch (url : String) (dest : String)
  /-- `dpkg -i <file>` -/
  | dpkgInstall (file : String)
  /-- `self._add_system_group()` -/
  | addGroup
  /-- `self._add_system_user()` -/
  | addUser
  /-- `os.makedirs(path, exist_ok=True)` -/
  | makeDataDir (path : String)
  /-- `shutil.chown(path, user=..., group=...)` -/
  | chownDataDir (path : String) (user : String) (group : String)
  /-- `systemctl enable <name>` -/
  | enableService (name : String)
deriving Repr, DecidableEq

/-- One step performed by the `config-changed` handler. -/
inductive CfgAction where
  /-- `self._write_systemd_env_file()` -/
  | writeEnv
  /-- `self._restart_service()`, i.e. `systemctl restart minio` -/
  | restart
  /-- `self.unit.status = self.UNIT_ACTIVE_STATUS` -/
  | setActive
deriving Repr, DecidableEq

/-- Sequential execution of a list of fallible steps with Python exception
semantics: each step is invoked in order; a step whose `ok` is `false`
raises, so it is the last step invoked and the handler fails.  The result
is the list of steps actually invoked and whether the handler completed. -/
def runSteps {α : Type} (ok : α → Bool) : List α → List α × Bool
  | [] => ([], true)
  | s :: rest =>
    if ok s then
      let r := runSteps ok rest
      (s :: r.1, r.2)
    else ([s], false)

/-- The sequence of steps `_on_install` performs, in source order. -/
def installPlan (cfg : Config) : List InstallAction :=
  [InstallAction.fetch cfg.debUrl "/tmp/minio.deb",
   InstallAction.dpkgInstall "/tmp/minio.deb",
   InstallAction.addGroup,
   InstallAction.addUser,
   InstallAction.makeDataDir MINIO_DATA_DIR,
   InstallAction.chownDataDir MINIO_DATA_DIR MINIO_SYSTEM_USER MINIO_SYSTEM_GROUP,
   InstallAction.enableService SERVICE_NAME]

/-- Embedding of `_on_install`: the steps of `installPlan` run in order,
aborting at the first failure. -/
def _on_install (cfg : Config) (ok : InstallAction → Bool) :
    List InstallAction × Bool :=
  runSteps ok (installPlan cfg)

/-- Embedding of `_on_config_changed`: write the environment file, restart
the service, then mark the unit active, aborting at the first failure. -/
def _on_config_changed (ok : CfgAction → Bool) : List CfgAction × Bool :=
  runSteps ok [CfgAction.writeEnv, CfgAction.restart, CfgAction.setActive]

/-- The character list of one `KEY=VALUE` environment-file line body
(without the terminating newline). -/
def envLine (key value : String) : List Char :=
  key.data ++ "=".data ++ value.data

/-- The configuration of the end-to-end scenario: port 9000, console port
9001, root user "admin", root password "secret", region "us-east-1". -/
def cfg0 : Config :=
  { debUrl := "http://example.com/minio.deb"
    port := 9000
    consolePort := 9001
    rootUser := "admin"
    rootPassword := "secret"
    region := "us-east-1"
    bucket := ""
    s3UriStyle := "" }

/-- A configuration whose root user contains a newline character; since
`_write_systemd_env_file` writes values unescaped, it corrupts the file's
line structure. -/
def cfgNewline : Config :=
  { cfg0 with rootUser := "a\nb" }

/-! ### General lemmas about `runSteps` -/

theorem runSteps_all_ok {α : Type} (ok : α → Bool) (l : List α)
    (h : ∀ a ∈ l, ok a = true) : runSteps ok l = (l, true) := by
  induction l with
  | nil => rfl
  | cons s rest ih =>
    simp only [runSteps, h s (List.mem_cons_self s rest), if_true]
    rw [ih fun a ha => h a (List.mem_cons_of_mem s ha)]

theorem runSteps_isTake {α : Type} (ok : α → Bool) (l : List α) :
    ∃ n, (runSteps ok l).1 = l.take n := by
  induction l with
  | nil => exact ⟨0, rfl⟩
  | cons s rest ih =>
    by_cases h : ok s = true
    · obtain ⟨n, hn⟩ := ih
      exact ⟨n + 1, by simp [runSteps, h, hn]⟩
    · exact ⟨1, by simp [runSteps, h]⟩

theorem runSteps_fail {α : Type} (ok : α → Bool) (l : List α)
    (h : (runSteps ok l).2 = false) :
    ∃ pre last, (runSteps ok l).1 = pre ++ [last] ∧ ok last = false ∧
      ∀ a ∈ pre, ok a = true := by
  induction l with
  | nil => simp [runSteps] at h
  | cons s rest ih =>
    by_cases hs : ok s = true
    · simp only [runSteps, hs, if_true] at h ⊢
      obtain ⟨pre, last, h1, h2, h3⟩ := ih h
      refine ⟨s :: pre, last, by simp [h1], h2, ?_⟩
      intro a ha
      rcases List.mem_cons.mp ha with rfl | ha
      · exact hs
      · exact h3 a ha
    · refine ⟨[], s, ?_, by simpa using hs, by simp⟩
      simp [runSteps, hs]

theorem runSteps_ok_of_snd_true {α : Type} (ok : α → Bool) (l : List α)
    (h : (runSteps ok l).2 = true) : ∀ a ∈ l, ok a = true := by
  induction l with
  | nil => simp
  | cons s rest ih =>
    by_cases hs : ok s = true
    · simp only [runSteps, hs, if_true] at h
      intro a ha
      rcases List.mem_cons.mp ha with rfl | ha
      · exact hs
      · exact ih h a ha
    · simp [runSteps, hs] at h

/-! ### Claim C2: config-changed ordering -/

/-- C2: in every execution of the config-changed handler, the service
restart is invoked exactly when the environment-file write succeeded, and
the unit is marked active exactly when both the write and the restart
succeeded; if either step fails, the mark-as-ready step does not occur. -/
theorem config_changed_ordering (ok : CfgAction → Bool) :
    (CfgAction.restart ∈ (_on_config_changed ok).1 ↔
      ok CfgAction.writeEnv = true) ∧
    (CfgAction.setActive ∈ (_on_config_changed ok).1 ↔
      (ok CfgAction.writeEnv = true ∧ ok CfgAction.restart = true)) := by
  cases hw : ok CfgAction.writeEnv <;> cases hr : ok CfgAction.restart <;>
    cases hs : ok CfgAction.setActive <;>
      simp [_on_config_changed, runSteps, hw, hr, hs]

/-! ### Claim C3: leader gating of the credential broker -/

/-- C3: a non-leader unit handling a credential request returns without
publishing anything (no side effect); a leader publishes a descriptor. -/
theorem non_leader_publishes_nothing (bindAddress : String) (cfg : Config)
    (event : CredRequest) :
    _on_credential_requested false bindAddress cfg event = [] ∧
    ∃ d, _on_credential_requested true bindAddress cfg event =
      [(event.relationId, d)] :=
  ⟨rfl, ⟨conn_data bindAddress cfg event, rfl⟩⟩

/-! ### Claim C4: bucket fallback -/

/-- C4: in the descriptor published by a leader, the bucket field is the
configured bucket when it is non-empty, and the request's default bucket
when the configured bucket is empty. -/
theorem bucket_fallback (bindAddress : String) (cfg : Config)
    (event : CredRequest) :
    ((_on_credential_requested true bindAddress cfg event).map
        fun p => p.2.lookup "bucket") =
      [some (if cfg.bucket = "" then event.bucket else cfg.bucket)] := by
  by_cases h : cfg.s3UriStyle = "" <;>
    simp [_on_credential_requested, conn_data, h, List.lookup]

/-! ### Claim C5: optional uri-style field -/

/-- C5: the descriptor published by a leader contains the `s3-uri-style`
key exactly when the configured value is non-empty; when the configuration
is empty the key is absent from the association list (not present with an
empty value), and when non-empty it carries the configured value. -/
theorem uri_style_omission (bindAddress : String) (cfg : Config)
    (event : CredRequest) :
    _on_credential_requested true bindAddress cfg event =
      [(event.relationId, conn_data bindAddress cfg event)] ∧
    ("s3-uri-style" ∈ (conn_data bindAddress cfg event).map Prod.fst ↔
      cfg.s3UriStyle ≠ "") ∧
    (conn_data bindAddress cfg event).lookup "s3-uri-style" =
      (if cfg.s3UriStyle = "" then none else some cfg.s3UriStyle) := by
  refine ⟨rfl, ?_, ?_⟩ <;>
    by_cases h : cfg.s3UriStyle = "" <;>
      simp [conn_data, h, List.lookup]

/-! ### Claim C7: descriptor contents and single publication -/

/-- C7: the descriptor published by a leader has endpoint
`http://<bound-address>:<configured-port>`, access-key the configured root
user, secret-key the configured root password, and region the configured
region; it is published exactly once, addressed to the id of the
requesting relation only. -/
theorem leader_publishes_descriptor (bindAddress : String) (cfg : Config)
    (event : CredRequest) :
    _on_credential_requested true bindAddress cfg event =
      [(event.relationId, conn_data bindAddress cfg event)] ∧
    (conn_data bindAddress cfg event).lookup "endpoint" =
      some ("http://" ++ bindAddress ++ ":" ++ toString cfg.port) ∧
    (conn_data bindAddress cfg event).lookup "access-key" =
      some cfg.rootUser ∧
    (conn_data bindAddress cfg event).lookup "secret-key" =
      some cfg.rootPassword ∧
    (conn_data bindAddress cfg event).lookup "region" = some cfg.region ∧
    (_on_credential_requested true bindAddress cfg event).map Prod.fst =
      [event.relationId] := by
  refine ⟨rfl, ?_, ?_, ?_, ?_, rfl⟩ <;>
    by_cases h : cfg.s3UriStyle = "" <;>
      simp [conn_data, h, List.lookup]

/-! ### Claim C6: idempotent principal provisioning -/

/-- C6: the group and user provisioners are idempotent: if the principal
name already exists in the database, no creation command is issued and the
database is unchanged (so no error can occur); and after a first
invocation, a second invocation with the same name issues no command and
leaves the database unchanged (no duplicate principal). -/
theorem provisioners_idempotent (name uname gname : String) (st : OSState) :
    (name ∈ st.groups → _add_system_group name st = (st, [])) ∧
    (uname ∈ st.users.map UserRec.name →
      _add_system_user uname gname st = (st, [])) ∧
    _add_system_group name (_add_system_group name st).1 =
      ((_add_system_group name st).1, []) ∧
    _add_system_user uname gname (_add_system_user uname gname st).1 =
      ((_add_system_user uname gname st).1, []) := by
  refine ⟨fun h => by simp [_add_system_group, h],
          fun h => by simp [_add_system_user, h], ?_, ?_⟩
  · by_cases h : name ∈ st.groups <;> simp [_add_system_group, h]
  · by_cases h : uname ∈ st.users.map UserRec.name <;>
      simp [_add_system_user, h]

/-- Witness for C6 at concrete inputs: a database already containing the
group `minio-user` (resp. the user `minio-user`) is left unchanged with no
command issued. -/
theorem provisioners_idempotent_witness :
    _add_system_group "minio-user" ⟨["minio-user"], []⟩ =
      (⟨["minio-user"], []⟩, []) ∧
    _add_system_user "minio-user" "minio-user"
        ⟨[], [⟨"minio-user", "minio-user", true, false⟩]⟩ =
      (⟨[], [⟨"minio-user", "minio-user", true, false⟩]⟩, []) :=
  ⟨(provisioners_idempotent "minio-user" "x" "x" ⟨["minio-user"], []⟩).1
      (by decide),
   (provisioners_idempotent "x" "minio-user" "minio-user"
      ⟨[], [⟨"minio-user", "minio-user", true, false⟩]⟩).2.1 (by decide)⟩

/-! ### Claim C9: attributes of the created user -/

/-- C9: when the user does not already exist, `_add_system_user` (run after
`_add_system_group`, as in the install handler) creates it with the
`useradd -M -r -g` flags: a system-class account (`-r`), with no home
directory and hence no login environment (`-M`), whose primary group is
the group the preceding `_add_system_group` call ensured. -/
theorem user_created_system_account (st : OSState)
    (h : MINIO_SYSTEM_USER ∉ st.users.map UserRec.name) :
    _add_system_user MINIO_SYSTEM_USER MINIO_SYSTEM_GROUP
        (_add_system_group MINIO_SYSTEM_GROUP st).1 =
      ({ (_add_system_group MINIO_SYSTEM_GROUP st).1 with
          users := st.users ++
            [{ name := MINIO_SYSTEM_USER, primaryGroup := MINIO_SYSTEM_GROUP,
               system := true, createHome := false }] },
       [Cmd.useradd MINIO_SYSTEM_GROUP MINIO_SYSTEM_USER]) ∧
    MINIO_SYSTEM_GROUP ∈ (_add_system_group MINIO_SYSTEM_GROUP st).1.groups := by
  by_cases hg : MINIO_SYSTEM_GROUP ∈ st.groups <;>
    simp [_add_system_group, _add_system_user, hg, h]

/-- Witness for C9 at the empty principal database. -/
theorem user_created_system_account_witness :
    _add_system_user MINIO_SYSTEM_USER MINIO_SYSTEM_GROUP
        (_add_system_group MINIO_SYSTEM_GROUP ⟨[], []⟩).1 =
      ({ (_add_system_group MINIO_SYSTEM_GROUP ⟨[], []⟩).1 with
          users :=
            [{ name := MINIO_SYSTEM_USER, primaryGroup := MINIO_SYSTEM_GROUP,
               system := true, createHome := false }] },
       [Cmd.useradd MINIO_SYSTEM_GROUP MINIO_SYSTEM_USER]) ∧
    MINIO_SYSTEM_GROUP ∈ (_add_system_group MINIO_SYSTEM_GROUP ⟨[], []⟩).1.groups :=
  user_created_system_account ⟨[], []⟩ (by decide)

/-! ### Claim C8: install ordering -/

/-- C8: the install handler performs fetch, dpkg install, group
provisioning, user provisioning, data-directory creation and ownership,
and service enabling, in exactly this order; when every step succeeds it
performs exactly these steps; in every run the executed steps are a prefix
of this order (so no later step runs after a failure and nothing is rolled
back); and on failure the trace is a successful prefix followed by the
single failing step. -/
theorem install_ordering (cfg : Config) (ok : InstallAction → Bool) :
    ((∀ a, ok a = true) →
      (_on_install cfg ok).1 =
        [InstallAction.fetch cfg.debUrl "/tmp/minio.deb",
         InstallAction.dpkgInstall "/tmp/minio.deb",
         InstallAction.addGroup,
         InstallAction.addUser,
         InstallAction.makeDataDir "/var/lib/minio",
         InstallAction.chownDataDir "/var/lib/minio" "minio-user" "minio-user",
         InstallAction.enableService "minio"]) ∧
    (∃ n, (_on_install cfg ok).1 = (installPlan cfg).take n) ∧
    ((_on_install cfg ok).2 = false →
      ∃ pre last, (_on_install cfg ok).1 = pre ++ [last] ∧
        ok last = false ∧ ∀ a ∈ pre, ok a = true) := by
  refine ⟨fun h => ?_, runSteps_isTake ok (installPlan cfg),
    runSteps_fail ok (installPlan cfg)⟩
  rw [_on_install, runSteps_all_ok ok (installPlan cfg) fun a _ => h a]
  rfl

/-- Witness for C8: with every step succeeding on the scenario
configuration, the install handler executes exactly the seven steps in
source order. -/
theorem install_ordering_witness :
    (_on_install cfg0 (fun _ => true)).1 =
      [InstallAction.fetch "http://example.com/minio.deb" "/tmp/minio.deb",
       InstallAction.dpkgInstall "/tmp/minio.deb",
       InstallAction.addGroup,
       InstallAction.addUser,
       InstallAction.makeDataDir "/var/lib/minio",
       InstallAction.chownDataDir "/var/lib/minio" "minio-user" "minio-user",
       InstallAction.enableService "minio"] :=
  (install_ordering cfg0 (fun _ => true)).1 (fun _ => rfl)

/-! ### Claim C10: the storage volume path is a constant -/

/-- C10: the `MINIO_VOLUMES` entry of the environment dictionary is the
class constant `/var/lib/minio` for every configuration (no configuration
input can change it), and the install handler creates and chowns that same
path. -/
theorem volumes_path_constant (cfg cfg' : Config) :
    (minio_env cfg).lookup "MINIO_VOLUMES" = some "/var/lib/minio" ∧
    (minio_env cfg).lookup "MINIO_VOLUMES" =
      (minio_env cfg').lookup "MINIO_VOLUMES" ∧
    MINIO_DATA_DIR = "/var/lib/minio" ∧
    InstallAction.makeDataDir MINIO_DATA_DIR ∈ installPlan cfg ∧
    InstallAction.chownDataDir MINIO_DATA_DIR MINIO_SYSTEM_USER
      MINIO_SYSTEM_GROUP ∈ installPlan cfg := by
  refine ⟨rfl, rfl, rfl, ?_, ?_⟩ <;> simp [installPlan]

/-! ### Lemmas about string data and line structure -/

theorem str_data_append (s t : String) : (s ++ t).data = s.data ++ t.data :=
  rfl

theorem str_data_empty : ("" : String).data = [] :=
  rfl

theorem newline_data : "\n".data = ['\n'] := by
  decide

theorem splitOn_line (l r : List Char) (h : '\n' ∉ l) :
    (l ++ '\n' :: r).splitOn '\n' = l :: r.splitOn '\n' := by
  have hp : ∀ x ∈ l, ¬((x == '\n') = true) := by
    intro x hx hbe
    exact h (by rwa [eq_of_beq hbe] at hx)
  simpa [List.splitOn] using
    List.splitOnP_first (· == '\n') l hp '\n' (by simp) r

theorem digitChar_lt_ten_ne_newline (m : Nat) (hm : m < 10) :
    Nat.digitChar m ≠ '\n' := by
  interval_cases m <;> decide

theorem toDigitsCore_ten_ne_newline (fuel : Nat) :
    ∀ (n : Nat) (acc : List Char), '\n' ∉ acc →
      '\n' ∉ Nat.toDigitsCore 10 fuel n acc := by
  induction fuel with
  | zero =>
    intro n acc hacc
    simpa [Nat.toDigitsCore] using hacc
  | succ fuel ih =>
    intro n acc hacc
    have hd : '\n' ∉ (Nat.digitChar (n % 10) :: acc) := by
      intro hmem
      rcases List.mem_cons.mp hmem with h | h
      · exact digitChar_lt_ten_ne_newline (n % 10) (Nat.mod_lt n (by omega)) h.symm
      · exact hacc h
    simp only [Nat.toDigitsCore]
    split
    · exact hd
    · exact ih _ _ hd

theorem toString_nat_ne_newline (n : Nat) : '\n' ∉ (toString n).data :=
  toDigitsCore_ten_ne_newline (n + 1) n [] (by simp)

theorem envLine_no_newline (key value : String)
    (hk : '\n' ∉ key.data) (hv : '\n' ∉ value.data) :
    '\n' ∉ envLine key value := by
  intro hmem
  rcases List.mem_append.mp hmem with h | h
  · rcases List.mem_append.mp h with h | h
    · exact hk h
    · exact absurd h (by decide)
  · exact hv h

theorem minio_opts_no_newline (cfg : Config) : '\n' ∉ (minio_opts cfg).data := by
  intro hmem
  simp only [minio_opts, str_data_append] at hmem
  rcases List.mem_append.mp hmem with h | h
  · rcases List.mem_append.mp h with h | h
    · rcases List.mem_append.mp h with h | h
      · exact absurd h (by decide)
      · exact toString_nat_ne_newline cfg.port h
    · exact absurd h (by decide)
  · exact toString_nat_ne_newline cfg.consolePort h

theorem write_env_data (prev : String) (cfg : Config) :
    (_write_systemd_env_file prev cfg).data =
      envLine "MINIO_ROOT_USER" cfg.rootUser ++ '\n' ::
      (envLine "MINIO_ROOT_PASSWORD" cfg.rootPassword ++ '\n' ::
      (envLine "MINIO_VOLUMES" "/var/lib/minio" ++ '\n' ::
      (envLine "MINIO_REGION" cfg.region ++ '\n' ::
      (envLine "MINIO_OPTS" (minio_opts cfg) ++ '\n' :: [])))) := by
  simp [_write_systemd_env_file, minio_env, MINIO_DATA_DIR, envLine,
    str_data_append, str_data_empty, newline_data, List.append_assoc]

/-! ### Claim C1: environment file contents -/

/-- C1 (amended): for every previous file content and every configuration
whose root-user, root-password and region contain no newline character,
the environment file is fully rewritten (the previous content is
truncated, so the output is byte-identical for a given configuration) and
consists of exactly five newline-terminated `KEY=VALUE` lines, in the
fixed order `MINIO_ROOT_USER`, `MINIO_ROOT_PASSWORD`, `MINIO_VOLUMES`,
`MINIO_REGION`, `MINIO_OPTS`, where `MINIO_OPTS` is
`--address :<port> --console-address :<console-port>`. -/
theorem write_env_file_five_lines (prev : String) (cfg : Config)
    (hu : '\n' ∉ cfg.rootUser.data) (hp : '\n' ∉ cfg.rootPassword.data)
    (hr : '\n' ∉ cfg.region.data) :
    fileLines (_write_systemd_env_file prev cfg) =
      [envLine "MINIO_ROOT_USER" cfg.rootUser,
       envLine "MINIO_ROOT_PASSWORD" cfg.rootPassword,
       envLine "MINIO_VOLUMES" "/var/lib/minio",
       envLine "MINIO_REGION" cfg.region,
       envLine "MINIO_OPTS"
         ("--address :" ++ toString cfg.port ++ " --console-address :" ++
           toString cfg.consolePort),
       []] ∧
    _write_systemd_env_file prev cfg = _write_systemd_env_file "" cfg := by
  constructor
  · unfold fileLines
    rw [write_env_data prev cfg]
    rw [splitOn_line _ _ (envLine_no_newline _ _ (by decide) hu),
        splitOn_line _ _ (envLine_no_newline _ _ (by decide) hp),
        splitOn_line _ _ (by decide),
        splitOn_line _ _ (envLine_no_newline _ _ (by decide) hr),
        splitOn_line _ _
          (envLine_no_newline _ _ (by decide) (minio_opts_no_newline cfg))]
    rfl
  · rfl

/-- Witness for C1 at the end-to-end scenario configuration, over a
non-empty previous file content. -/
theorem write_env_file_five_lines_witness :
    fileLines (_write_systemd_env_file "MINIO_OLD=1\n" cfg0) =
      [envLine "MINIO_ROOT_USER" "admin",
       envLine "MINIO_ROOT_PASSWORD" "secret",
       envLine "MINIO_VOLUMES" "/var/lib/minio",
       envLine "MINIO_REGION" "us-east-1",
       envLine "MINIO_OPTS" "--address :9000 --console-address :9001",
       []] ∧
    _write_systemd_env_file "MINIO_OLD=1\n" cfg0 =
      _write_systemd_env_file "" cfg0 :=
  write_env_file_five_lines "MINIO_OLD=1\n" cfg0 (by decide) (by decide)
    (by decide)

/-- Counterexample to C1 as stated for every configuration: values are
written unescaped, so with a root-user containing a newline (`"a\nb"`)
the file contains six newline characters and splits into seven chunks,
whereas a file of exactly five newline-terminated lines contains five
newline characters and splits into six chunks. -/
theorem write_env_newline_counterexample :
    (_write_systemd_env_file "" cfgNewline).data.count '\n' = 6 ∧
    (fileLines (_write_systemd_env_file "" cfgNewline)).length = 7 := by
  constructor <;> decide
